import Mathlib

/-!
Verification development for the geodesic routines of this repository.

The repository ships the C header src/src/geodesic.h, which declares the
geodesic API (geod_init, geod_direct, geod_gendirect, geod_inverse,
geod_geninverse) and defines the capability masks (enum geod_mask) and the
flag values (enum geod_flags).  The bodies of the functions are not under
src/, so where a property depends on them the corresponding definition below
is modelled from the specification and its doc comment says so explicitly.
The enum values, which are fully given in the header, are embedded exactly.

All scalar quantities of the C code (C doubles) are embedded as rationals;
the two quantities settled analytically (the reduced length and the geodesic
scales on the f = 0 sphere) are embedded as real numbers.
-/

/-! ### Capability masks and flags (enum geod_mask, enum geod_flags)

These values are transcribed from src/src/geodesic.h lines 349-370. -/

/-- Mask value GEOD_NONE = 0U: calculate nothing. -/
def GEOD_NONE : ℕ := 0

/-- Mask value GEOD_LATITUDE = 1U<<7 | 0U: calculate latitude. -/
def GEOD_LATITUDE : ℕ := 1 <<< 7 ||| 0

/-- Mask value GEOD_LONGITUDE = 1U<<8 | 1U<<3: calculate longitude. -/
def GEOD_LONGITUDE : ℕ := 1 <<< 8 ||| 1 <<< 3

/-- Mask value GEOD_AZIMUTH = 1U<<9 | 0U: calculate azimuth. -/
def GEOD_AZIMUTH : ℕ := 1 <<< 9 ||| 0

/-- Mask value GEOD_DISTANCE = 1U<<10 | 1U<<0: calculate distance. -/
def GEOD_DISTANCE : ℕ := 1 <<< 10 ||| 1 <<< 0

/-- Mask value GEOD_DISTANCE_IN = 1U<<11 | 1U<<0 | 1U<<1: allow distance as
input. -/
def GEOD_DISTANCE_IN : ℕ := 1 <<< 11 ||| 1 <<< 0 ||| 1 <<< 1

/-- Mask value GEOD_REDUCEDLENGTH = 1U<<12 | 1U<<0 | 1U<<2: calculate reduced
length. -/
def GEOD_REDUCEDLENGTH : ℕ := 1 <<< 12 ||| 1 <<< 0 ||| 1 <<< 2

/-- Mask value GEOD_GEODESICSCALE = 1U<<13 | 1U<<0 | 1U<<2: calculate geodesic
scale. -/
def GEOD_GEODESICSCALE : ℕ := 1 <<< 13 ||| 1 <<< 0 ||| 1 <<< 2

/-- Mask value GEOD_AREA = 1U<<14 | 1U<<4: calculate area. -/
def GEOD_AREA : ℕ := 1 <<< 14 ||| 1 <<< 4

/-- Mask value GEOD_ALL = 0x7F80U | 0x1FU: calculate everything. -/
def GEOD_ALL : ℕ := 0x7F80 ||| 0x1F

/-- Flag value GEOD_NOFLAGS = 0U: no flags. -/
def GEOD_NOFLAGS : ℕ := 0

/-- Flag value GEOD_ARCMODE = 1U<<0: position given in terms of arc
distance. -/
def GEOD_ARCMODE : ℕ := 1 <<< 0

/-- Flag value GEOD_LONG_UNROLL = 1U<<15: unroll the longitude. -/
def GEOD_LONG_UNROLL : ℕ := 1 <<< 15

/-! ### Ellipsoid model (struct geod_geodesic, geod_init) -/

/-- Error kind for ellipsoid construction, named in the spec (section 7):
InvalidEllipsoid signals a <= 0 or f >= 1 at construction. -/
inductive GeodError where
  | InvalidEllipsoid
deriving DecidableEq

/-- The ellipsoid value of struct geod_geodesic (src/src/geodesic.h lines
168-175): the equatorial radius a, the flattening f, and the derived
constants.  The transcendental constants c2 and etol2 and the series
coefficient tables A3x, C3x, C4x are computed by the body of geod_init,
which is not under src/; they are not needed by the claims below and are
omitted from the embedding. -/
structure geod_geodesic where
  a : ℚ
  f : ℚ
  f1 : ℚ
  e2 : ℚ
  ep2 : ℚ
  n : ℚ
  b : ℚ
deriving DecidableEq

/-- Modelled from the spec: the body of geod_init is not under src/ (the
header only declares it).  Per spec sections 4.1, 6 and 7, construction
validates its inputs, failing with error kind InvalidEllipsoid when a <= 0
or f >= 1, and otherwise computes the derived constants exactly once:
f1 = 1 - f, the eccentricity squared e2 = f (2 - f), the second
eccentricity squared ep2 = e2 / f1 squared, the third flattening
n = f / (2 - f) and the polar semi-axis b = a f1. -/
def geod_init (a f : ℚ) : Except GeodError geod_geodesic :=
  if a ≤ 0 ∨ 1 ≤ f then Except.error GeodError.InvalidEllipsoid
  else Except.ok
    { a := a
      f := f
      f1 := 1 - f
      e2 := f * (2 - f)
      ep2 := (f * (2 - f)) / ((1 - f) * (1 - f))
      n := f / (2 - f)
      b := a * (1 - f) }

/-- Well-formedness of a constructed ellipsoid: the defining inequalities
hold, every denominator appearing in a derived constant is nonzero (so all
derived operations are defined), and the derived constants satisfy their
defining equations. -/
def wellFormedEllipsoid (g : geod_geodesic) : Prop :=
  0 < g.a ∧ g.f < 1 ∧ 0 < g.f1 ∧ 0 < g.b ∧ 0 < 2 - g.f ∧ 0 < 1 - g.e2 ∧
  g.f1 = 1 - g.f ∧ g.e2 = g.f * (2 - g.f) ∧ g.n = g.f / (2 - g.f) ∧
  g.b = g.a * g.f1 ∧ g.ep2 = g.e2 / (g.f1 * g.f1)

instance (g : geod_geodesic) : Decidable (wellFormedEllipsoid g) := by
  unfold wellFormedEllipsoid
  infer_instance

/-! ### Inverse solver iteration (geod_inverse)

The body of geod_inverse is not under src/.  The spec (sections 4.4 and 5)
describes its root-finding loop: Newton steps on the longitude-difference
residual, a bracket maintained throughout, a bisection step whenever the
Newton candidate leaves the bracket or the derivative is unusable, and a
hard, statically fixed iteration cap, so that the loop is not open-ended
and the inverse problem is always solved. -/

/-- Modelled from the spec: the cap on Newton iterations of the inverse
solver (a fixed, small constant). -/
def maxit1 : ℕ := 20

/-- Modelled from the spec: the hard, statically fixed cap on the total
number of Newton plus bisection iterations of the inverse solver. -/
def maxit2 : ℕ := maxit1 + 53 + 10

/-- Modelled from the spec: the lower bracket endpoint maintained by the
inverse solver, updated to the current iterate when the residual there is
negative. -/
def bracketLo (F : ℚ → ℚ) (lo x : ℚ) : ℚ :=
  if F x < 0 then x else lo

/-- Modelled from the spec: the upper bracket endpoint maintained by the
inverse solver, updated to the current iterate when the residual there is
nonnegative. -/
def bracketHi (F : ℚ → ℚ) (hi x : ℚ) : ℚ :=
  if F x < 0 then hi else x

/-- Modelled from the spec: the next iterate of the inverse solver.  The
Newton candidate x - F x / dF x is accepted when the derivative is nonzero
and the candidate stays strictly inside the bracket; otherwise the solver
falls back to a bisection step at the bracket midpoint. -/
def nextApprox (F dF : ℚ → ℚ) (lo hi x : ℚ) : ℚ :=
  if dF x ≠ 0 ∧ lo < x - F x / dF x ∧ x - F x / dF x < hi then
    x - F x / dF x
  else (lo + hi) / 2

/-- Modelled from the spec: the Newton-with-bisection-fallback loop of the
inverse solver, fuelled by the iteration cap.  The residual F and its
derivative dF are parameters because the series machinery evaluating them
is not under src/.  Returns the final iterate together with the number of
iterations actually performed. -/
def nbLoop (F dF : ℚ → ℚ) : ℕ → ℚ → ℚ → ℚ → ℚ × ℕ
  | 0, _, _, x => (x, 0)
  | fuel + 1, lo, hi, x =>
    if F x = 0 then (x, 0)
    else
      ((nbLoop F dF fuel (bracketLo F lo x) (bracketHi F hi x)
          (nextApprox F dF (bracketLo F lo x) (bracketHi F hi x) x)).1,
       (nbLoop F dF fuel (bracketLo F lo x) (bracketHi F hi x)
          (nextApprox F dF (bracketLo F lo x) (bracketHi F hi x) x)).2 + 1)

/-- Modelled from the spec: the iteration phase of geod_inverse.  The
azimuth alpha1 is sought in the initial bracket (0, 180) degrees, starting
from its midpoint, with the loop capped at maxit2 iterations. -/
def geod_inverse_iterate (F dF : ℚ → ℚ) : ℚ × ℕ :=
  nbLoop F dF maxit2 0 180 90

/-! ### Direct solver output contract (geod_direct, geod_gendirect)

The bodies of geod_direct and geod_gendirect are not under src/.  The spec
(sections 4.3 and 6) and the header doc comments (src/src/geodesic.h lines
200-204, 252-262) give their output contract: lon2 and azi2 are normalized
to [-180, 180] degrees unless the GEOD_LONG_UNROLL flag is set, in which
case lon2 is left unwrapped so that lon2 - lon1 reports the total signed
winding; and the function value a12 equals s12_a12 when GEOD_ARCMODE is
set.  The raw quantities produced by the series core are parameters. -/

/-- Angle normalization into the range [-180, 180) degrees, used for the
lon2 and azi2 outputs. -/
def normAng (x : ℚ) : ℚ :=
  x - 360 * ((⌊(x + 180) / 360⌋ : ℤ) : ℚ)

/-- Output record of the direct problem: destination latitude, longitude
and azimuth, the distance s12 and the arc length a12. -/
structure DirectOut where
  lat2 : ℚ
  lon2 : ℚ
  azi2 : ℚ
  s12 : ℚ
  a12 : ℚ
deriving DecidableEq

/-- Modelled from the spec: the output-contract layer of geod_gendirect.
The arguments rLat2, rDLon, rAzi2, rS12, rA12 are the raw destination
latitude, the raw signed longitude difference accumulated along the
geodesic (the total signed winding), the raw forward azimuth, and the raw
distance and arc length produced by the series core (not under src/).
With GEOD_LONG_UNROLL set, lon2 is lon1 plus the accumulated difference,
unwrapped; otherwise lon2 is normalized.  azi2 is always normalized.  With
GEOD_ARCMODE set, s12_a12 is the arc length, the returned a12 equals it
exactly and s12 comes from the core; otherwise s12_a12 is the distance,
returned unchanged as s12, and a12 comes from the core. -/
def geod_gendirect (flags : ℕ) (lat1 lon1 azi1 s12a12 : ℚ)
    (rLat2 rDLon rAzi2 rS12 rA12 : ℚ) : DirectOut :=
  { lat2 := rLat2
    lon2 := if flags &&& GEOD_LONG_UNROLL ≠ 0 then lon1 + rDLon
            else normAng (lon1 + rDLon)
    azi2 := normAng rAzi2
    s12 := if flags &&& GEOD_ARCMODE ≠ 0 then rS12 else s12a12
    a12 := if flags &&& GEOD_ARCMODE ≠ 0 then s12a12 else rA12 }

/-- Modelled from the spec: the simple form geod_direct is the general form
with no flags (distance mode, no longitude unrolling). -/
def geod_direct (lat1 lon1 azi1 s12 : ℚ)
    (rLat2 rDLon rAzi2 rS12 rA12 : ℚ) : DirectOut :=
  geod_gendirect GEOD_NOFLAGS lat1 lon1 azi1 s12 rLat2 rDLon rAzi2 rS12 rA12

/-! ### Reduced length and geodesic scale on the f = 0 sphere

The header doc comment (src/src/geodesic.h lines 46-57) defines m12 by the
lateral displacement of point 2 under a perturbation dazi1 of the initial
azimuth, and M12, M21 by the separation at one endpoint of geodesics
parallel at the other; it states that m12 = s12 and M12 = M21 = 1 hold on
a FLAT surface.  With f = 0 the surface is the sphere of radius a, not a
flat surface, and these quantities have exact closed forms derived from
spherical geometry below. -/

/-- Modelled from the spec: the endpoint of the direct problem on the
sphere of radius a, started at the north pole with azimuth alpha, after
arc sigma (spec section 4.3, the auxiliary-sphere great circle; with f = 0
the auxiliary sphere is the surface itself).  The geodesic is the meridian
selected by alpha, and the endpoint has colatitude sigma. -/
noncomputable def spherePoint (a sigma alpha : ℝ) : ℝ × ℝ × ℝ :=
  (a * (Real.sin sigma * Real.cos alpha),
   a * (Real.sin sigma * Real.sin alpha),
   a * Real.cos sigma)

/-- Modelled from the spec: perturbing the initial azimuth by dazi moves
the endpoint along the colatitude circle of radius a sin sigma, a
displacement of a sin sigma dazi perpendicular to the geodesic. -/
noncomputable def lateralDisplacement (a sigma dazi : ℝ) : ℝ :=
  a * Real.sin sigma * dazi

/-- Modelled from the spec: the reduced length on the f = 0 sphere of
radius a at distance s12, m12 = a sin(s12 / a), read off from the lateral
displacement a sin(sigma) dazi at arc sigma = s12 / a (header definition of
m12, src/src/geodesic.h lines 46-51). -/
noncomputable def m12_sphere (a s12 : ℝ) : ℝ :=
  a * Real.sin (s12 / a)

/-- Modelled from the spec: the geodesic scale M12 on the f = 0 sphere,
M12 = cos(s12 / a): geodesics parallel at point 1 and separated by dt are
great circles whose separation at arc sigma is cos(sigma) dt (header
definition of M12, src/src/geodesic.h lines 52-57). -/
noncomputable def M12_sphere (a s12 : ℝ) : ℝ :=
  Real.cos (s12 / a)

/-- Modelled from the spec: the geodesic scale M21 on the f = 0 sphere; by
the symmetry of the sphere it has the same closed form as M12. -/
noncomputable def M21_sphere (a s12 : ℝ) : ℝ :=
  Real.cos (s12 / a)

/-! ### Supporting lemmas -/

/-- Bitwise and distributes on the right over bitwise or, after projecting
to a single bit. -/
theorem and_or_and_right (m u A : ℕ) (h : u &&& A = 0) :
    (m ||| u) &&& A = m &&& A := by
  apply Nat.eq_of_testBit_eq
  intro i
  have hz : (u.testBit i && A.testBit i) = false := by
    have h0 : (u &&& A).testBit i = false := by
      rw [h]
      exact Nat.zero_testBit i
    rwa [Nat.testBit_and] at h0
  rw [Nat.testBit_and, Nat.testBit_or, Bool.and_or_distrib_right, hz,
    Bool.or_false, Nat.testBit_and]

/-- Rewriting a capability intersection through associativity: if the mask
m contains the bit pattern p, then any caps word containing m contains p. -/
theorem and_closure (caps m p : ℕ) (hmp : m &&& p = p)
    (hcm : caps &&& m = m) : caps &&& p = p := by
  have h1 : caps &&& (m &&& p) = (caps &&& m) &&& p :=
    (Nat.and_assoc caps m p).symm
  calc caps &&& p = caps &&& (m &&& p) := by rw [hmp]
    _ = (caps &&& m) &&& p := h1
    _ = m &&& p := by rw [hcm]
    _ = p := hmp

/-- The normalized angle lies in [-180, 180). -/
theorem normAng_mem (x : ℚ) : -180 ≤ normAng x ∧ normAng x ≤ 180 := by
  unfold normAng
  have h1 : ((⌊(x + 180) / 360⌋ : ℤ) : ℚ) ≤ (x + 180) / 360 :=
    Int.floor_le ((x + 180) / 360)
  have h2 : (x + 180) / 360 < ((⌊(x + 180) / 360⌋ : ℤ) : ℚ) + 1 :=
    Int.lt_floor_add_one ((x + 180) / 360)
  have h360 : (360 : ℚ) * ((x + 180) / 360) = x + 180 := by ring
  constructor
  · nlinarith [h1]
  · nlinarith [h2]

/-- The bracket endpoints maintained by the inverse solver are nested
inside the previous bracket and stay ordered. -/
theorem bracket_mem (F : ℚ → ℚ) (lo hi x : ℚ) (hlo : lo ≤ x) (hhi : x ≤ hi) :
    lo ≤ bracketLo F lo x ∧ bracketLo F lo x ≤ bracketHi F hi x ∧
      bracketHi F hi x ≤ hi := by
  unfold bracketLo bracketHi
  split_ifs
  · exact ⟨hlo, hhi, le_refl hi⟩
  · exact ⟨le_refl lo, hlo, hhi⟩

/-- The next iterate of the inverse solver stays inside the bracket. -/
theorem nextApprox_mem (F dF : ℚ → ℚ) (lo hi x : ℚ) (h : lo ≤ hi) :
    lo ≤ nextApprox F dF lo hi x ∧ nextApprox F dF lo hi x ≤ hi := by
  unfold nextApprox
  split_ifs with hc
  · exact ⟨le_of_lt hc.2.1, le_of_lt hc.2.2⟩
  · constructor
    · linarith
    · linarith

/-- The loop of the inverse solver performs at most as many iterations as
its fuel. -/
theorem nbLoop_steps_le (F dF : ℚ → ℚ) (fuel : ℕ) :
    ∀ lo hi x, (nbLoop F dF fuel lo hi x).2 ≤ fuel := by
  induction fuel with
  | zero =>
    intro lo hi x
    simp [nbLoop]
  | succ fuel ih =>
    intro lo hi x
    by_cases h0 : F x = 0
    · simp [nbLoop, h0]
    · simp only [nbLoop, h0, if_false]
      exact Nat.succ_le_succ (ih _ _ _)

/-- The loop of the inverse solver returns an iterate inside the initial
bracket. -/
theorem nbLoop_mem (F dF : ℚ → ℚ) (fuel : ℕ) :
    ∀ lo hi x, lo ≤ x → x ≤ hi →
      lo ≤ (nbLoop F dF fuel lo hi x).1 ∧ (nbLoop F dF fuel lo hi x).1 ≤ hi := by
  induction fuel with
  | zero =>
    intro lo hi x hlo hhi
    simpa [nbLoop] using ⟨hlo, hhi⟩
  | succ fuel ih =>
    intro lo hi x hlo hhi
    by_cases h0 : F x = 0
    · simpa [nbLoop, h0] using ⟨hlo, hhi⟩
    · simp only [nbLoop, h0, if_false]
      obtain ⟨b1, b2, b3⟩ := bracket_mem F lo hi x hlo hhi
      obtain ⟨n1, n2⟩ := nextApprox_mem F dF (bracketLo F lo x)
        (bracketHi F hi x) x b2
      have hrec := ih (bracketLo F lo x) (bracketHi F hi x)
        (nextApprox F dF (bracketLo F lo x) (bracketHi F hi x) x) n1 n2
      exact ⟨le_trans b1 hrec.1, le_trans hrec.2 b3⟩

/-- The endpoint of the spherical direct problem lies on the colatitude
circle of radius a sin sigma: its first two coordinates have that norm and
its third coordinate is fixed by sigma alone, so an azimuth change moves
the endpoint along that circle. -/
theorem spherePoint_lateral_circle (a sigma alpha : ℝ) :
    (spherePoint a sigma alpha).1 ^ 2 + (spherePoint a sigma alpha).2.1 ^ 2 =
      (a * Real.sin sigma) ^ 2 ∧
    (spherePoint a sigma alpha).2.2 = a * Real.cos sigma := by
  constructor
  · have h := Real.sin_sq_add_cos_sq alpha
    show (a * (Real.sin sigma * Real.cos alpha)) ^ 2 +
        (a * (Real.sin sigma * Real.sin alpha)) ^ 2 =
        (a * Real.sin sigma) ^ 2
    linear_combination (a * Real.sin sigma) ^ 2 * h
  · rfl

/-- The reduced length on the sphere is the coefficient of the azimuth
perturbation in the lateral displacement at arc s12 / a. -/
theorem m12_sphere_eq_lateral (a s12 dazi : ℝ) :
    m12_sphere a s12 * dazi = lateralDisplacement a (s12 / a) dazi := by
  unfold m12_sphere lateralDisplacement
  ring

/-! ### Claim theorems -/

/-- Claim C5: in the geod_mask encoding every capability bit pattern
contains the dependency bits of its prerequisites: GEOD_DISTANCE_IN,
GEOD_REDUCEDLENGTH and GEOD_GEODESICSCALE each contain the low dependency
bit 1<<0 of GEOD_DISTANCE, so any caps word that requests one of them also
carries the distance dependency bit, and intersects GEOD_DISTANCE, even
when GEOD_DISTANCE is not separately requested. -/
theorem geod_mask_dependency_closure :
    (GEOD_DISTANCE &&& (1 <<< 0)) = 1 <<< 0 ∧
    (GEOD_DISTANCE_IN &&& (1 <<< 0)) = 1 <<< 0 ∧
    (GEOD_REDUCEDLENGTH &&& (1 <<< 0)) = 1 <<< 0 ∧
    (GEOD_GEODESICSCALE &&& (1 <<< 0)) = 1 <<< 0 ∧
    ∀ caps : ℕ,
      (caps &&& GEOD_DISTANCE_IN = GEOD_DISTANCE_IN ∨
       caps &&& GEOD_REDUCEDLENGTH = GEOD_REDUCEDLENGTH ∨
       caps &&& GEOD_GEODESICSCALE = GEOD_GEODESICSCALE) →
      caps &&& GEOD_DISTANCE ≠ 0 ∧ (caps &&& (1 <<< 0)) = 1 <<< 0 := by
  refine ⟨by decide, by decide, by decide, by decide, ?_⟩
  intro caps h
  have hp : (caps &&& (1 <<< 0)) = 1 <<< 0 := by
    rcases h with h | h | h
    · exact and_closure caps GEOD_DISTANCE_IN (1 <<< 0) (by decide) h
    · exact and_closure caps GEOD_REDUCEDLENGTH (1 <<< 0) (by decide) h
    · exact and_closure caps GEOD_GEODESICSCALE (1 <<< 0) (by decide) h
  refine ⟨?_, hp⟩
  intro hzero
  have h2 : ((caps &&& GEOD_DISTANCE) &&& (1 <<< 0)) = 1 <<< 0 := by
    rw [Nat.and_assoc, show (GEOD_DISTANCE &&& (1 <<< 0)) = 1 <<< 0 by decide]
    exact hp
  rw [hzero] at h2
  exact absurd h2 (by decide)

/-- Witness for claim C5, at the concrete caps word GEOD_DISTANCE_IN. -/
theorem geod_mask_dependency_closure_witness :
    (GEOD_DISTANCE_IN &&& GEOD_DISTANCE_IN = GEOD_DISTANCE_IN ∨
     GEOD_DISTANCE_IN &&& GEOD_REDUCEDLENGTH = GEOD_REDUCEDLENGTH ∨
     GEOD_DISTANCE_IN &&& GEOD_GEODESICSCALE = GEOD_GEODESICSCALE) ∧
    (GEOD_DISTANCE_IN &&& GEOD_DISTANCE ≠ 0 ∧
     (GEOD_DISTANCE_IN &&& (1 <<< 0)) = 1 <<< 0) :=
  ⟨Or.inl (by decide),
   geod_mask_dependency_closure.2.2.2.2 GEOD_DISTANCE_IN (Or.inl (by decide))⟩

/-- Claim C9: GEOD_ALL is exactly the bitwise union of the eight individual
capability masks, and equals 0x7F80 | 0x1F. -/
theorem geod_all_exact_union :
    GEOD_ALL = (GEOD_LATITUDE ||| GEOD_LONGITUDE ||| GEOD_AZIMUTH |||
      GEOD_DISTANCE ||| GEOD_DISTANCE_IN ||| GEOD_REDUCEDLENGTH |||
      GEOD_GEODESICSCALE ||| GEOD_AREA) ∧
    GEOD_ALL = 0x7F80 ||| 0x1F := by
  exact ⟨by decide, by decide⟩

/-- Claim C10: GEOD_LONG_UNROLL (1<<15) is bit-disjoint from every geod_mask
capability (its intersection with GEOD_ALL is 0), so adjoining it to any
caps word never changes the requested capabilities; by contrast
GEOD_ARCMODE (1<<0) coincides with the low dependency bit of
GEOD_DISTANCE. -/
theorem long_unroll_disjoint :
    (GEOD_LONG_UNROLL &&& GEOD_ALL) = 0 ∧
    (∀ caps : ℕ,
      ((caps ||| GEOD_LONG_UNROLL) &&& GEOD_ALL) = caps &&& GEOD_ALL) ∧
    GEOD_ARCMODE = 1 <<< 0 ∧
    (GEOD_DISTANCE &&& GEOD_ARCMODE) = GEOD_ARCMODE := by
  refine ⟨by decide, ?_, by decide, by decide⟩
  intro caps
  exact and_or_and_right caps GEOD_LONG_UNROLL GEOD_ALL (by decide)

/-- Claim C3: ellipsoid construction validates its inputs: geod_init fails
with InvalidEllipsoid exactly when a <= 0 or f >= 1, and otherwise returns
a well-formed ellipsoid on which every derived constant is defined. -/
theorem geod_init_validates (a f : ℚ) :
    (geod_init a f = Except.error GeodError.InvalidEllipsoid ↔
      (a ≤ 0 ∨ 1 ≤ f)) ∧
    ∀ g : geod_geodesic, geod_init a f = Except.ok g →
      wellFormedEllipsoid g := by
  by_cases h : a ≤ 0 ∨ 1 ≤ f
  · constructor
    · simp [geod_init, h]
    · intro g hg
      simp [geod_init, h] at hg
  · constructor
    · simp [geod_init, h]
    · intro g hg
      simp only [geod_init, if_neg h] at hg
      rw [Except.ok.injEq] at hg
      push_neg at h
      obtain ⟨ha, hf⟩ := h
      subst hg
      unfold wellFormedEllipsoid
      refine ⟨ha, hf, show (0:ℚ) < 1 - f by linarith,
        show (0:ℚ) < a * (1 - f) from mul_pos ha (by linarith),
        show (0:ℚ) < 2 - f by linarith,
        show (0:ℚ) < 1 - f * (2 - f) by nlinarith,
        rfl, rfl, rfl, rfl, rfl⟩

/-- Witness for claim C3, at the concrete ellipsoid a = 2, f = 1/2. -/
theorem geod_init_validates_witness :
    geod_init 2 (1/2) = Except.ok
      { a := 2, f := 1/2, f1 := 1/2, e2 := 3/4, ep2 := 3, n := 1/3, b := 1 } ∧
    wellFormedEllipsoid
      { a := 2, f := 1/2, f1 := 1/2, e2 := 3/4, ep2 := 3, n := 1/3, b := 1 } :=
  ⟨by norm_num [geod_init], (geod_init_validates 2 (1/2)).2
    { a := 2, f := 1/2, f1 := 1/2, e2 := 3/4, ep2 := 3, n := 1/3, b := 1 }
    (by norm_num [geod_init])⟩

/-- Claim C1: for every valid ellipsoid (one accepted by geod_init) and
every pair of points with latitudes in [-90, 90], the inverse solver
terminates and returns a solution: whatever residual and derivative the
series machinery produces, the Newton-with-bisection loop performs at most
the statically fixed number maxit2 of iterations and returns an azimuth
inside the initial bracket [0, 180]. -/
theorem geod_inverse_always_solves (a f : ℚ) (g : geod_geodesic)
    (hg : geod_init a f = Except.ok g)
    (lat1 lon1 lat2 lon2 : ℚ)
    (h1a : -90 ≤ lat1) (h1b : lat1 ≤ 90) (h2a : -90 ≤ lat2) (h2b : lat2 ≤ 90)
    (F dF : ℚ → ℚ) :
    (geod_inverse_iterate F dF).2 ≤ maxit2 ∧
    0 ≤ (geod_inverse_iterate F dF).1 ∧
    (geod_inverse_iterate F dF).1 ≤ 180 := by
  unfold geod_inverse_iterate
  refine ⟨nbLoop_steps_le F dF maxit2 0 180 90, ?_, ?_⟩
  · exact (nbLoop_mem F dF maxit2 0 180 90 (by norm_num) (by norm_num)).1
  · exact (nbLoop_mem F dF maxit2 0 180 90 (by norm_num) (by norm_num)).2

/-- Witness for claim C1, at the ellipsoid a = 2, f = 1/2, coincident
points at the origin, and the residual x - 90 with derivative 1. -/
theorem geod_inverse_always_solves_witness :
    geod_init 2 (1/2) = Except.ok
      { a := 2, f := 1/2, f1 := 1/2, e2 := 3/4, ep2 := 3, n := 1/3, b := 1 } ∧
    ((geod_inverse_iterate (fun x => x - 90) (fun _ => 1)).2 ≤ maxit2 ∧
     0 ≤ (geod_inverse_iterate (fun x => x - 90) (fun _ => 1)).1 ∧
     (geod_inverse_iterate (fun x => x - 90) (fun _ => 1)).1 ≤ 180) :=
  ⟨by norm_num [geod_init],
   geod_inverse_always_solves 2 (1/2)
     { a := 2, f := 1/2, f1 := 1/2, e2 := 3/4, ep2 := 3, n := 1/3, b := 1 }
     (by norm_num [geod_init]) 0 0 0 0 (by norm_num)
     (by norm_num) (by norm_num) (by norm_num) (fun x => x - 90) (fun _ => 1)⟩

/-- Claim C6: for every input the lon2 and azi2 values returned by the
direct solver lie in [-180, 180], except that with GEOD_LONG_UNROLL set
lon2 is not wrapped and lon2 - lon1 reports the total signed winding
(the raw accumulated longitude difference); the simple form geod_direct
always returns normalized lon2 and azi2. -/
theorem geod_direct_output_normalized (flags : ℕ)
    (lat1 lon1 azi1 s12a12 rLat2 rDLon rAzi2 rS12 rA12 : ℚ) :
    (flags &&& GEOD_LONG_UNROLL = 0 →
      -180 ≤ (geod_gendirect flags lat1 lon1 azi1 s12a12
        rLat2 rDLon rAzi2 rS12 rA12).lon2 ∧
      (geod_gendirect flags lat1 lon1 azi1 s12a12
        rLat2 rDLon rAzi2 rS12 rA12).lon2 ≤ 180) ∧
    (-180 ≤ (geod_gendirect flags lat1 lon1 azi1 s12a12
        rLat2 rDLon rAzi2 rS12 rA12).azi2 ∧
      (geod_gendirect flags lat1 lon1 azi1 s12a12
        rLat2 rDLon rAzi2 rS12 rA12).azi2 ≤ 180) ∧
    (flags &&& GEOD_LONG_UNROLL ≠ 0 →
      (geod_gendirect flags lat1 lon1 azi1 s12a12
        rLat2 rDLon rAzi2 rS12 rA12).lon2 - lon1 = rDLon) ∧
    (-180 ≤ (geod_direct lat1 lon1 azi1 s12a12
        rLat2 rDLon rAzi2 rS12 rA12).lon2 ∧
      (geod_direct lat1 lon1 azi1 s12a12
        rLat2 rDLon rAzi2 rS12 rA12).lon2 ≤ 180 ∧
      -180 ≤ (geod_direct lat1 lon1 azi1 s12a12
        rLat2 rDLon rAzi2 rS12 rA12).azi2 ∧
      (geod_direct lat1 lon1 azi1 s12a12
        rLat2 rDLon rAzi2 rS12 rA12).azi2 ≤ 180) := by
  refine ⟨?_, ?_, ?_, ?_⟩
  · intro h
    simp only [geod_gendirect, h, ne_eq, not_true_eq_false, if_false,
      not_false_eq_true]
    exact normAng_mem (lon1 + rDLon)
  · simp only [geod_gendirect]
    exact normAng_mem rAzi2
  · intro h
    simp only [geod_gendirect, h, ne_eq, not_false_eq_true, if_true]
    ring
  · have h0 : GEOD_NOFLAGS &&& GEOD_LONG_UNROLL = 0 := by decide
    simp only [geod_direct, geod_gendirect, h0, ne_eq, not_true_eq_false,
      if_false, not_false_eq_true]
    exact ⟨(normAng_mem (lon1 + rDLon)).1, (normAng_mem (lon1 + rDLon)).2,
      (normAng_mem rAzi2).1, (normAng_mem rAzi2).2⟩

/-- Witness for claim C6, with the unroll flag set and with no flags, at a
raw longitude difference of 500 degrees. -/
theorem geod_direct_output_normalized_witness :
    (GEOD_LONG_UNROLL &&& GEOD_LONG_UNROLL ≠ 0 ∧
     (geod_gendirect GEOD_LONG_UNROLL 0 10 0 0 0 500 0 0 0).lon2 - 10 = 500) ∧
    (GEOD_NOFLAGS &&& GEOD_LONG_UNROLL = 0 ∧
     -180 ≤ (geod_gendirect GEOD_NOFLAGS 0 10 0 0 0 500 0 0 0).lon2 ∧
     (geod_gendirect GEOD_NOFLAGS 0 10 0 0 0 500 0 0 0).lon2 ≤ 180) :=
  ⟨⟨by decide,
    (geod_direct_output_normalized GEOD_LONG_UNROLL
      0 10 0 0 0 500 0 0 0).2.2.1 (by decide)⟩,
   ⟨by decide,
    (geod_direct_output_normalized GEOD_NOFLAGS
      0 10 0 0 0 500 0 0 0).1 (by decide)⟩⟩

/-- Claim C8: geod_gendirect always returns the arc length a12 as its
function value: with GEOD_ARCMODE set the returned a12 equals the input
s12_a12 exactly, and otherwise it is the arc length computed by the core. -/
theorem gendirect_arcmode_a12 (flags : ℕ)
    (lat1 lon1 azi1 s12a12 rLat2 rDLon rAzi2 rS12 rA12 : ℚ) :
    (flags &&& GEOD_ARCMODE ≠ 0 →
      (geod_gendirect flags lat1 lon1 azi1 s12a12
        rLat2 rDLon rAzi2 rS12 rA12).a12 = s12a12) ∧
    (flags &&& GEOD_ARCMODE = 0 →
      (geod_gendirect flags lat1 lon1 azi1 s12a12
        rLat2 rDLon rAzi2 rS12 rA12).a12 = rA12) := by
  constructor
  · intro h
    simp only [geod_gendirect, h, ne_eq, not_false_eq_true, if_true]
  · intro h
    simp only [geod_gendirect, h, ne_eq, not_true_eq_false, if_false,
      not_false_eq_true]

/-- Witness for claim C8, in arc mode with input arc length 77 degrees. -/
theorem gendirect_arcmode_a12_witness :
    GEOD_ARCMODE &&& GEOD_ARCMODE ≠ 0 ∧
    (geod_gendirect GEOD_ARCMODE 0 0 0 77 1 2 3 4 5).a12 = 77 :=
  ⟨by decide,
   (gendirect_arcmode_a12 GEOD_ARCMODE 0 0 0 77 1 2 3 4 5).1 (by decide)⟩

/-- Claim C7 counterexample: with f = 0 the surface is a sphere, and at
a = 1, s12 = pi/2 (a quarter great circle from the north pole) the claimed
identities fail: m12 = sin(pi/2) = 1 is not pi/2, and
M12 = M21 = cos(pi/2) = 0 is not 1.  The header doc states the identities
for a FLAT surface, not for f = 0. -/
theorem flat_reduction_claim_false :
    ¬ (m12_sphere 1 (Real.pi / 2) = Real.pi / 2 ∧
       M12_sphere 1 (Real.pi / 2) = 1 ∧ M21_sphere 1 (Real.pi / 2) = 1) := by
  intro h
  have h2 := h.2.1
  unfold M12_sphere at h2
  rw [div_one, Real.cos_pi_div_two] at h2
  norm_num at h2

/-- Claim C7 (amended): with f = 0 the reduced length is
m12 = a sin(s12/a) and the geodesic scales are M12 = M21 = cos(s12/a);
the identities m12 = s12 and M12 = M21 = 1 of the claim, which the code
documentation asserts for a flat surface, hold on the sphere exactly when
s12 = 0. -/
theorem flat_reduction_sphere (a s : ℝ) (ha : 0 < a) (hs : 0 ≤ s) :
    ((m12_sphere a s = s ∧ M12_sphere a s = 1 ∧ M21_sphere a s = 1) ↔
      s = 0) := by
  constructor
  · rintro ⟨h1, _, _⟩
    by_contra hs0
    have hspos : 0 < s := lt_of_le_of_ne hs (Ne.symm hs0)
    have hx : 0 < s / a := div_pos hspos ha
    have hsin := Real.sin_lt hx
    unfold m12_sphere at h1
    have h2 : a * Real.sin (s / a) < a * (s / a) :=
      mul_lt_mul_of_pos_left hsin ha
    have h3 : a * (s / a) = s := by field_simp
    rw [h3, h1] at h2
    exact lt_irrefl s h2
  · rintro rfl
    unfold m12_sphere M12_sphere M21_sphere
    simp

/-- Witness for the amended claim C7, on the unit sphere at s12 = 0. -/
theorem flat_reduction_sphere_witness :
    (0:ℝ) < 1 ∧
    ((m12_sphere 1 0 = 0 ∧ M12_sphere 1 0 = 1 ∧ M21_sphere 1 0 = 1) ↔
      (0:ℝ) = 0) :=
  ⟨by norm_num, flat_reduction_sphere 1 0 (by norm_num) le_rfl⟩
